import Mathlib

/-!
Verification development for the Bake & Taste marketplace.

The data model is embedded from the SQL schema
(`supabase/migrations`, initial migration): tables `profiles`, `bakeries`,
`cakes`, `orders`, their CHECK constraints, foreign keys and row-level
security policies. The operations are embedded from the page code:
`fetchCake` / `handleSubmitOrder` (OrderCake page), `updateOrderStatus`
(SellerOrders page), `toggleAvailability` (SellerCakes page) and the
`handle_new_user` signup trigger. Statuses are `TEXT` columns constrained
by CHECK lists and are modelled as strings checked against those lists.
`DECIMAL(10,2)` money values are exact fixed-point numbers; they are
modelled as integers in cents (scale 2), which multiplication by an
integer quantity preserves exactly.
-/

namespace BakeAndTaste

/-- The `user_role` enum of the schema: `('customer', 'seller')`. -/
inductive Role where
  | customer : Role
  | seller : Role
deriving DecidableEq, Repr

/-- `role = 'seller'` as a boolean test, used by the row-level security
predicates of the schema. -/
def Role.isSeller : Role → Bool
  | Role.seller => true
  | Role.customer => false

/-- A row of the `profiles` table (timestamps omitted; no claim reads them). -/
structure Profile where
  id : String
  user_id : String
  role : Role
  display_name : Option String
  email : Option String
  phone : Option String
  address : Option String
deriving DecidableEq, Repr

/-- A row of the `bakeries` table. -/
structure Bakery where
  id : String
  seller_id : String
  name : String
  description : Option String
  address : Option String
  phone : Option String
  image_url : Option String
deriving DecidableEq, Repr

/-- A row of the `cakes` table. -/
structure Cake where
  id : String
  bakery_id : String
  name : String
  description : Option String
  price : Int
  image_url : Option String
  category : Option String
  allergens : List String
  available : Bool
  preparation_time_hours : Int
deriving DecidableEq, Repr

/-- A row of the `orders` table. -/
structure OrderRow where
  id : String
  customer_id : String
  cake_id : String
  bakery_id : String
  quantity : Int
  total_amount : Int
  special_instructions : Option String
  delivery_type : String
  delivery_address : Option String
  preferred_delivery_time : Option String
  status : String
  payment_status : String
deriving DecidableEq, Repr

/-- The database state: the four tables of the schema. -/
structure Store where
  profiles : List Profile
  bakeries : List Bakery
  cakes : List Cake
  orders : List OrderRow
deriving DecidableEq, Repr

/-- The `orders.status` CHECK constraint of the schema:
`status IN ('pending', 'confirmed', 'preparing', 'ready', 'completed', 'cancelled')`. -/
def allowedOrderStatuses : List String :=
  ["pending", "confirmed", "preparing", "ready", "completed", "cancelled"]

/-- The `orders.payment_status` CHECK constraint of the schema. -/
def allowedPaymentStatuses : List String :=
  ["pending", "paid", "failed", "refunded"]

/-- The `orders.delivery_type` CHECK constraint of the schema. -/
def allowedDeliveryTypes : List String :=
  ["pickup", "delivery"]

/-- The status values offered by the `Update Status` Select of the
SellerOrders page (its six SelectItem values, in order). -/
def sellerStatusOptions : List String :=
  ["pending", "confirmed", "in_progress", "ready", "completed", "cancelled"]

/-- PostgREST `.single()`: succeeds exactly when the query returned one row. -/
def single? {α : Type} (l : List α) : Option α :=
  match l with
  | [a] => some a
  | _ => none

/-- The cake query of the OrderCake page:
`from('cakes').select(...).eq('id', cakeId).eq('available', true).single()`.
Any error (no row, or several) lands in the catch branch, so the page ends
up without a cake; that outcome is `none`. -/
def fetchCake (db : Store) (cakeId : String) : Option Cake :=
  single? (db.cakes.filter (fun c => c.id == cakeId && c.available))

/-- The profile lookup shared by the pages:
`from('profiles').select('id').eq('user_id', user.id).single()`. -/
def resolveProfile (db : Store) (uid : String) : Option Profile :=
  single? (db.profiles.filter (fun p => p.user_id == uid))

/-- Row-level security predicate of the `Sellers can update order status`
policy (and the seller order SELECT policy): the principal `uid` owns,
through a seller profile, the bakery referenced by the order row. -/
def sellerCanUpdateOrder (ps : List Profile) (bs : List Bakery)
    (uid : String) (o : OrderRow) : Bool :=
  bs.any (fun b => b.id == o.bakery_id &&
    ps.any (fun p => b.seller_id == p.id && p.user_id == uid && p.role.isSeller))

/-- Row-level security predicate of the `Sellers can manage their cakes`
policy: the principal `uid` owns, through a seller profile, the bakery
referenced by the cake row. -/
def sellerCanManageCake (ps : List Profile) (bs : List Bakery)
    (uid : String) (c : Cake) : Bool :=
  bs.any (fun b => b.id == c.bakery_id &&
    ps.any (fun p => b.seller_id == p.id && p.user_id == uid && p.role.isSeller))

/-- The constraints the `orders` table checks on an inserted row: the three
CHECK lists above. (`quantity` and the text columns carry no CHECK.) -/
def orderRowCheckOk (o : OrderRow) : Bool :=
  allowedDeliveryTypes.contains o.delivery_type &&
  allowedOrderStatuses.contains o.status &&
  allowedPaymentStatuses.contains o.payment_status

/-- Whether the store accepts an order INSERT issued by principal `uid`:
the `Customers can create orders` row-level security policy (the inserting
principal owns the profile named as `customer_id`), the three foreign keys
of the `orders` table, and the CHECK constraints. -/
def orderInsertAllowed (db : Store) (uid : String) (o : OrderRow) : Bool :=
  db.profiles.any (fun p => p.id == o.customer_id && p.user_id == uid) &&
  db.profiles.any (fun p => p.id == o.customer_id) &&
  db.cakes.any (fun c => c.id == o.cake_id) &&
  db.bakeries.any (fun b => b.id == o.bakery_id) &&
  orderRowCheckOk o

/-- `INSERT INTO orders`: appends the row when policies, foreign keys and
checks pass, otherwise the statement fails and nothing is recorded. -/
def insertOrder (db : Store) (uid : String) (o : OrderRow) : Option Store :=
  if orderInsertAllowed db uid o then
    some { db with orders := db.orders ++ [o] }
  else
    none

/-- The order form state of the OrderCake page (quantity, deliveryType,
deliveryAddress, preferredDeliveryTime, specialInstructions). -/
structure OrderForm where
  quantity : Int
  deliveryType : String
  deliveryAddress : String
  preferredDeliveryTime : String
  specialInstructions : String
deriving DecidableEq, Repr

/-- The `s || null` idiom of the insert payload: an empty string is falsy
in JavaScript, so it becomes `null`; any other string passes through. -/
def emptyToNull (s : String) : Option String :=
  if s == "" then none else some s

/-- The row built by `handleSubmitOrder` (OrderCake page): exactly the
object literal passed to `from('orders').insert({...})`, with
`totalAmount = cake.price * quantity` computed just before it. -/
def buildOrderRow (profileId : String) (cake : Cake) (form : OrderForm)
    (newOrderId : String) : OrderRow :=
  { id := newOrderId
    customer_id := profileId
    cake_id := cake.id
    bakery_id := cake.bakery_id
    quantity := form.quantity
    total_amount := cake.price * form.quantity
    delivery_type := form.deliveryType
    delivery_address :=
      if form.deliveryType == "delivery" then some form.deliveryAddress else none
    preferred_delivery_time := emptyToNull form.preferredDeliveryTime
    special_instructions := emptyToNull form.specialInstructions
    status := "pending"
    payment_status := "pending" }

/-- `handleSubmitOrder` of the OrderCake page, for principal `uid` holding
the client-side cake snapshot `cake`: resolve the profile by `user_id`,
build the row from the form state, insert it. Returns the new store and the
inserted row, or `none` on any failure. -/
def handleSubmitOrder (db : Store) (uid : String) (cake : Cake)
    (form : OrderForm) (newOrderId : String) : Option (Store × OrderRow) :=
  (resolveProfile db uid).bind fun profile =>
    (insertOrder db uid (buildOrderRow profile.id cake form newOrderId)).map
      fun db2 => (db2, buildOrderRow profile.id cake form newOrderId)

/-- The per-row effect of the status UPDATE of the SellerOrders page:
a row is rewritten when it matches `eq('id', orderId)` and is visible to
the caller under the seller update policy; only `status` changes. -/
def updRow (ps : List Profile) (bs : List Bakery)
    (uid orderId newStatus : String) (o : OrderRow) : OrderRow :=
  if o.id == orderId && sellerCanUpdateOrder ps bs uid o then
    { o with status := newStatus }
  else
    o

/-- `updateOrderStatus` of the SellerOrders page:
`from('orders').update({ status: newStatus }).eq('id', orderId)`.
The page sends the new status unconditionally; the only validation is the
schema CHECK constraint, evaluated on the rows actually rewritten: if some
row is rewritten and the new status is outside the CHECK list the statement
fails, otherwise the matching visible rows get the new status. -/
def updateOrderStatus (db : Store) (uid orderId newStatus : String) :
    Option Store :=
  if db.orders.any (fun o => o.id == orderId &&
        sellerCanUpdateOrder db.profiles db.bakeries uid o) &&
      !(allowedOrderStatuses.contains newStatus) then
    none
  else
    some { db with orders :=
      db.orders.map (updRow db.profiles db.bakeries uid orderId newStatus) }

/-- The per-row effect of the availability UPDATE of the SellerCakes page:
a cake matching `eq('id', cakeId)` and visible under the seller manage
policy gets its `available` flag set to `v`. -/
def setAvailRow (ps : List Profile) (bs : List Bakery)
    (uid cakeId : String) (v : Bool) (c : Cake) : Cake :=
  if c.id == cakeId && sellerCanManageCake ps bs uid c then
    { c with available := v }
  else
    c

/-- The availability update of the SellerCakes page with an explicit target
value: `from('cakes').update({ available: v }).eq('id', cakeId)`. -/
def setAvailability (db : Store) (uid cakeId : String) (v : Bool) : Store :=
  { db with cakes :=
      db.cakes.map (setAvailRow db.profiles db.bakeries uid cakeId v) }

/-- `toggleAvailability` of the SellerCakes page: it passes
`!cake.available` computed from the caller's snapshot as the target value. -/
def toggleAvailability (db : Store) (uid : String) (snapshot : Cake) : Store :=
  setAvailability db uid snapshot.id (!snapshot.available)

/-- The quantity input handler of the OrderCake page:
`setQuantity(parseInt(e.target.value) || 1)` — a failed parse (NaN) or a
parsed 0 are falsy and fall back to 1. -/
def quantityFromInput (parsed : Option Int) : Int :=
  match parsed with
  | none => 1
  | some n => if n == 0 then 1 else n

/-- A row of `auth.users` as seen by the signup trigger: id, email and the
`raw_user_meta_data` keys the trigger reads. -/
structure AuthUser where
  id : String
  email : String
  meta_display_name : Option String
  meta_role : Option Role
deriving DecidableEq, Repr

/-- The `handle_new_user` trigger function of the schema: the profile row
it inserts, with `COALESCE(meta display_name, email)` as display name and
`COALESCE(meta role, 'customer')` as role. -/
def handle_new_user (u : AuthUser) (newProfileId : String) : Profile :=
  { id := newProfileId
    user_id := u.id
    role := u.meta_role.getD Role.customer
    display_name := some (u.meta_display_name.getD u.email)
    email := some u.email
    phone := none
    address := none }

/-- The `on_auth_user_created` trigger firing once, AFTER INSERT on
`auth.users`, for a new principal: it inserts the profile built by
`handle_new_user`; the `UNIQUE (user_id)` constraint of `profiles` makes
the insert fail if a profile for the principal already exists. -/
def signupNewUser (db : Store) (u : AuthUser) (newProfileId : String) :
    Option Store :=
  if db.profiles.any (fun p => p.user_id == u.id) then
    none
  else
    some { db with profiles := db.profiles ++ [handle_new_user u newProfileId] }

/-! Concrete fixtures used by counterexamples and witnesses. -/

/-- A seller profile. -/
def exSeller : Profile :=
  { id := "p-seller", user_id := "u-seller", role := Role.seller
    display_name := some "Ann", email := some "ann@example.com"
    phone := none, address := none }

/-- A customer profile. -/
def exCustomer : Profile :=
  { id := "p-cust", user_id := "u-cust", role := Role.customer
    display_name := some "Bob", email := some "bob@example.com"
    phone := none, address := none }

/-- The seller's bakery. -/
def exBakery : Bakery :=
  { id := "b1", seller_id := "p-seller", name := "Sweet Treats"
    description := none, address := none, phone := none, image_url := none }

/-- An available cake of that bakery, price 25.00 (2500 cents). -/
def exCake : Cake :=
  { id := "k1", bakery_id := "b1", name := "Chocolate Cake"
    description := none, price := 2500, image_url := none, category := none
    allergens := [], available := true, preparation_time_hours := 24 }

/-- An order of that cake already in the terminal `completed` state. -/
def exCompletedOrder : OrderRow :=
  { id := "o1", customer_id := "p-cust", cake_id := "k1", bakery_id := "b1"
    quantity := 2, total_amount := 5000, special_instructions := none
    delivery_type := "pickup", delivery_address := none
    preferred_delivery_time := none, status := "completed"
    payment_status := "pending" }

/-- A store holding the fixtures above. -/
def exStore : Store :=
  { profiles := [exSeller, exCustomer], bakeries := [exBakery]
    cakes := [exCake], orders := [exCompletedOrder] }

/-- An order of the cake in the `confirmed` state, whose next step along
the forward chain would be `in_progress`. -/
def exConfirmedOrder : OrderRow :=
  { exCompletedOrder with id := "o2", status := "confirmed" }

/-- The store with the confirmed order. -/
def exStoreConfirmed : Store :=
  { exStore with orders := [exConfirmedOrder] }

/-- The store after the seller flips the cake to unavailable; no orders yet. -/
def exStoreUnavail : Store :=
  { exStore with cakes := [{ exCake with available := false }], orders := [] }

/-- A pickup order form. -/
def exPickupForm : OrderForm :=
  { quantity := 2, deliveryType := "pickup", deliveryAddress := "ignored street"
    preferredDeliveryTime := "", specialInstructions := "" }

/-- The row `handleSubmitOrder` builds for `exPickupForm`. -/
def exPickupOrder : OrderRow :=
  buildOrderRow "p-cust" exCake exPickupForm "o-p1"

/-- The store after the pickup order is placed on `exStore`. -/
def exPickupStore : Store :=
  { exStore with orders := exStore.orders ++ [exPickupOrder] }

/-- `exPickupStore` after the seller moves order `o-p1` to `confirmed`. -/
def exAfterUpd : Store :=
  { exPickupStore with orders := exPickupStore.orders.map (updRow exPickupStore.profiles exPickupStore.bakeries "u-seller" "o-p1" "confirmed") }

/-- A stale-snapshot order form (the customer fetched `exCake` while it was
available, then the seller flipped it off). -/
def exStaleForm : OrderForm :=
  { quantity := 2, deliveryType := "pickup", deliveryAddress := ""
    preferredDeliveryTime := "", specialInstructions := "" }

/-- The row inserted from the stale snapshot. -/
def exStaleOrder : OrderRow :=
  buildOrderRow "p-cust" exCake exStaleForm "o-new"

/-- The store after the stale-snapshot order lands on `exStoreUnavail`. -/
def exStaleStore : Store :=
  { exStoreUnavail with orders := [exStaleOrder] }

/-- A form with quantity 0 (not a positive integer). -/
def exZeroQtyForm : OrderForm :=
  { exStaleForm with quantity := 0 }

/-- The row inserted for the zero-quantity form. -/
def exZeroOrder : OrderRow :=
  buildOrderRow "p-cust" exCake exZeroQtyForm "o-q0"

/-- The store after the zero-quantity order lands on `exStore`. -/
def exZeroStore : Store :=
  { exStore with orders := exStore.orders ++ [exZeroOrder] }

/-- A delivery form with an empty delivery address. -/
def exDeliveryEmptyForm : OrderForm :=
  { quantity := 1, deliveryType := "delivery", deliveryAddress := ""
    preferredDeliveryTime := "", specialInstructions := "" }

/-- The row inserted for the empty-address delivery form. -/
def exDeliveryEmptyOrder : OrderRow :=
  buildOrderRow "p-cust" exCake exDeliveryEmptyForm "o-d0"

/-- The store after the empty-address delivery order lands on `exStore`. -/
def exDeliveryEmptyStore : Store :=
  { exStore with orders := exStore.orders ++ [exDeliveryEmptyOrder] }

/-- A fresh principal with no metadata supplied at signup. -/
def exNewUser : AuthUser :=
  { id := "u-new", email := "new@example.com"
    meta_display_name := none, meta_role := none }

/-! Helper lemmas shared by the claim theorems. -/

/-- If no cake carries the requested id, the availability-filtered query
returns no row and `.single()` fails. -/
theorem fetchCake_none_of_absent (db : Store) (cakeId : String)
    (h : ∀ c ∈ db.cakes, c.id ≠ cakeId) : fetchCake db cakeId = none := by
  unfold fetchCake
  have hfilter : db.cakes.filter (fun c => c.id == cakeId && c.available) = [] := by
    rw [List.filter_eq_nil_iff]
    intro c hc
    simp only [Bool.and_eq_true, beq_iff_eq, not_and]
    intro hid
    exact absurd hid (h c hc)
  rw [hfilter]
  rfl

/-- If every cake carrying the requested id is unavailable, the
availability-filtered query returns no row and `.single()` fails. -/
theorem fetchCake_none_of_unavailable (db : Store) (cakeId : String)
    (h : ∀ c ∈ db.cakes, c.id = cakeId → c.available = false) :
    fetchCake db cakeId = none := by
  unfold fetchCake
  have hfilter : db.cakes.filter (fun c => c.id == cakeId && c.available) = [] := by
    rw [List.filter_eq_nil_iff]
    intro c hc
    simp only [Bool.and_eq_true, beq_iff_eq, not_and]
    intro hid
    simp [h c hc hid]
  rw [hfilter]
  rfl

/-- Shape of a successful `handleSubmitOrder`: the profile resolved, the
returned row is the one built from the form, the store accepted the insert,
and the new state is the old one with exactly that row appended. -/
theorem handleSubmitOrder_eq_some (db : Store) (uid : String) (cake : Cake)
    (form : OrderForm) (oid : String) (db2 : Store) (o : OrderRow)
    (h : handleSubmitOrder db uid cake form oid = some (db2, o)) :
    ∃ profile, resolveProfile db uid = some profile ∧
      o = buildOrderRow profile.id cake form oid ∧
      orderInsertAllowed db uid o = true ∧
      db2 = { db with orders := db.orders ++ [o] } := by
  unfold handleSubmitOrder at h
  rw [Option.bind_eq_some] at h
  obtain ⟨profile, hp, h2⟩ := h
  rw [Option.map_eq_some'] at h2
  obtain ⟨db', hins, hpair⟩ := h2
  injection hpair with hdb2 ho
  subst hdb2
  subst ho
  unfold insertOrder at hins
  by_cases hallow : orderInsertAllowed db uid (buildOrderRow profile.id cake form oid) = true
  · rw [if_pos hallow] at hins
    injection hins with hdb'
    exact ⟨profile, hp, rfl, hallow, hdb'.symm⟩
  · rw [if_neg hallow] at hins
    exact absurd hins (by simp)

/-- Shape of a successful `updateOrderStatus`: the new state is the old one
with the per-row update mapped over the orders. -/
theorem updateOrderStatus_eq_some (db : Store) (uid oid s : String)
    (db2 : Store) (h : updateOrderStatus db uid oid s = some db2) :
    db2 = { db with orders := db.orders.map (updRow db.profiles db.bakeries uid oid s) } := by
  unfold updateOrderStatus at h
  split at h
  · exact absurd h (by simp)
  · injection h with h'
    exact h'.symm

/-- The per-row status update never changes a row's id. -/
theorem updRow_id (ps : List Profile) (bs : List Bakery) (uid oid s : String)
    (o : OrderRow) : (updRow ps bs uid oid s o).id = o.id := by
  unfold updRow
  split <;> rfl

/-- The per-row status update never changes a row's total amount. -/
theorem updRow_total_amount (ps : List Profile) (bs : List Bakery)
    (uid oid s : String) (o : OrderRow) :
    (updRow ps bs uid oid s o).total_amount = o.total_amount := by
  unfold updRow
  split <;> rfl

/-- The per-row availability update is idempotent: the rewritten row
matches the same id and ownership predicate as the original. -/
theorem setAvailRow_idem (ps : List Profile) (bs : List Bakery)
    (uid cakeId : String) (v : Bool) (c : Cake) :
    setAvailRow ps bs uid cakeId v (setAvailRow ps bs uid cakeId v c) =
      setAvailRow ps bs uid cakeId v c := by
  unfold setAvailRow
  by_cases h : (c.id == cakeId && sellerCanManageCake ps bs uid c) = true
  · simp only [if_pos h]
    have h2 : (({ c with available := v } : Cake).id == cakeId &&
        sellerCanManageCake ps bs uid { c with available := v }) = true := by
      simpa [sellerCanManageCake] using h
    simp only [if_pos h2]
  · simp only [if_neg h, if_neg h]

/-- A submitted empty optional field is stored as `null`, never as the
empty string. -/
theorem emptyToNull_ne_some_empty (s : String) : emptyToNull s ≠ some "" := by
  unfold emptyToNull
  by_cases h : s = ""
  · simp [h]
  · simp [h]

/-! Claim theorems. -/

/-- C1 counterexample: `updateOrderStatus` issued by the owning seller on a
`completed` (terminal) order with requested status `pending` does not fail
with any error: it succeeds and silently rewrites the order backwards. -/
theorem c1_counterexample :
    exCompletedOrder.status = "completed" ∧
    updateOrderStatus exStore "u-seller" "o1" "pending" =
      some { exStore with orders := [{ exCompletedOrder with status := "pending" }] } := by
  decide

/-- C1 (amended): `updateOrderStatus` performs no transition validation.
Whenever the requested status is in the schema CHECK list, the update
succeeds regardless of the order's current status — terminal states
included — and every matching row visible to the caller is silently
rewritten to the requested status; no `InvalidTransition` failure exists. -/
theorem c1_no_transition_validation (db : Store) (uid oid s : String)
    (o : OrderRow) (hs : allowedOrderStatuses.contains s = true)
    (ho : o ∈ db.orders)
    (hhit : (o.id == oid && sellerCanUpdateOrder db.profiles db.bakeries uid o) = true) :
    updateOrderStatus db uid oid s =
      some { db with orders := db.orders.map (updRow db.profiles db.bakeries uid oid s) } ∧
    { o with status := s } ∈ db.orders.map (updRow db.profiles db.bakeries uid oid s) := by
  constructor
  · simp [updateOrderStatus, hs]
    intro x _ _ _
    simpa using hs
  · have hmem := List.mem_map_of_mem (updRow db.profiles db.bakeries uid oid s) ho
    have hrow : updRow db.profiles db.bakeries uid oid s o = { o with status := s } := by
      unfold updRow
      rw [if_pos hhit]
    rw [hrow] at hmem
    exact hmem

/-- C1 witness: the amended theorem at the concrete store — the completed
order `o1`, moved back to `pending` by its owning seller. -/
theorem c1_no_transition_validation_witness :
    updateOrderStatus exStore "u-seller" "o1" "pending" =
      some { exStore with orders := exStore.orders.map (updRow exStore.profiles exStore.bakeries "u-seller" "o1" "pending") } ∧
    { exCompletedOrder with status := "pending" } ∈
      exStore.orders.map (updRow exStore.profiles exStore.bakeries "u-seller" "o1" "pending") :=
  c1_no_transition_validation exStore "u-seller" "o1" "pending" exCompletedOrder
    (by decide) (by decide) (by decide)

/-- C2: the created order's total amount is `cake.price * quantity` at call
time, and a subsequent `updateOrderStatus` — whatever order, caller and
status it names — preserves every order's id and total amount, so the total
is never recomputed or mutated by a status transition. -/
theorem c2_total_amount_fixed (db : Store) (uid : String) (cake : Cake)
    (form : OrderForm) (oid : String) (db2 : Store) (o : OrderRow)
    (hplace : handleSubmitOrder db uid cake form oid = some (db2, o))
    (uid2 oid2 s : String) (db3 : Store)
    (hupd : updateOrderStatus db2 uid2 oid2 s = some db3) :
    o.total_amount = cake.price * form.quantity ∧
    db3.orders.map (fun x => (x.id, x.total_amount)) =
      db2.orders.map (fun x => (x.id, x.total_amount)) := by
  obtain ⟨profile, hp, ho, hallow, hdb2⟩ :=
    handleSubmitOrder_eq_some db uid cake form oid db2 o hplace
  constructor
  · rw [ho]
    rfl
  · have h3 := updateOrderStatus_eq_some db2 uid2 oid2 s db3 hupd
    rw [h3]
    rw [List.map_map]
    exact congrArg (fun f => db2.orders.map f)
      (funext fun x => by simp [Function.comp, updRow_id, updRow_total_amount])

/-- C2 witness: the pickup order placed on the concrete store (2 × 2500
cents = 5000), then moved to `confirmed` by the seller. -/
theorem c2_total_amount_fixed_witness :
    exPickupOrder.total_amount = exCake.price * exPickupForm.quantity ∧
    exAfterUpd.orders.map (fun x => (x.id, x.total_amount)) =
      exPickupStore.orders.map (fun x => (x.id, x.total_amount)) :=
  c2_total_amount_fixed exStore "u-cust" exCake exPickupForm "o-p1"
    exPickupStore exPickupOrder (by decide) "u-seller" "o-p1" "confirmed"
    exAfterUpd (by decide)

/-- C3 (code bug): the seller status Select offers `in_progress`, but the
schema CHECK list spells the third state `preparing`, so the store rejects
`in_progress`: on a `confirmed` order the forward chain step to
`in_progress` fails, while `preparing` would succeed. -/
theorem c3_in_progress_rejected :
    sellerStatusOptions.contains "in_progress" = true ∧
    allowedOrderStatuses.contains "in_progress" = false ∧
    updateOrderStatus exStoreConfirmed "u-seller" "o2" "in_progress" = none ∧
    (updateOrderStatus exStoreConfirmed "u-seller" "o2" "preparing").isSome = true := by
  decide

/-- C4 counterexample: in a store whose only copy of cake `k1` is flagged
unavailable, `handleSubmitOrder` run with the customer's stale snapshot of
`k1` (fetched while the cake was still available) succeeds and creates the
order. -/
theorem c4_counterexample :
    (∀ c ∈ exStoreUnavail.cakes, c.available = false) ∧
    exCake.available = true ∧
    handleSubmitOrder exStoreUnavail "u-cust" exCake exStaleForm "o-new" =
      some (exStaleStore, exStaleOrder) := by
  decide

/-- C4 (amended): an unavailable cake is invisible to the order page's cake
query (`fetchCake` yields no row), so a fresh order flow cannot start; but
order insertion itself never re-checks availability: a submission that
succeeds from a stale snapshot of the unavailable cake appends an order
referencing it. -/
theorem c4_unavailable_cake_guard (db : Store) (cakeId uid : String)
    (cake : Cake) (form : OrderForm) (oid : String) (db2 : Store) (o : OrderRow)
    (hunavail : ∀ c ∈ db.cakes, c.id = cakeId → c.available = false)
    (hsnap : cake.id = cakeId)
    (hsubmit : handleSubmitOrder db uid cake form oid = some (db2, o)) :
    fetchCake db cakeId = none ∧ o.cake_id = cakeId ∧
    db2.orders = db.orders ++ [o] := by
  obtain ⟨profile, hp, ho, hallow, hdb2⟩ :=
    handleSubmitOrder_eq_some db uid cake form oid db2 o hsubmit
  refine ⟨fetchCake_none_of_unavailable db cakeId hunavail, ?_, ?_⟩
  · rw [ho]
    exact hsnap
  · rw [hdb2]

/-- C4 witness: the amended theorem at the concrete unavailable-cake store
and the stale snapshot. -/
theorem c4_unavailable_cake_guard_witness :
    fetchCake exStoreUnavail "k1" = none ∧ exStaleOrder.cake_id = "k1" ∧
    exStaleStore.orders = exStoreUnavail.orders ++ [exStaleOrder] :=
  c4_unavailable_cake_guard exStoreUnavail "k1" "u-cust" exCake exStaleForm
    "o-new" exStaleStore exStaleOrder (by decide) (by decide) (by decide)

/-- C5: the availability-filtered cake query fails identically when the
requested id does not exist and when it names an unavailable cake: both
produce the empty query result, `.single()` fails, and the two outcomes are
the very same value — nothing distinguishes them to the caller. -/
theorem c5_not_found_indistinguishable (db1 db2 : Store) (id1 id2 : String)
    (habsent : ∀ c ∈ db1.cakes, c.id ≠ id1)
    (hunavail : ∀ c ∈ db2.cakes, c.id = id2 → c.available = false) :
    fetchCake db1 id1 = none ∧ fetchCake db2 id2 = none ∧
    fetchCake db1 id1 = fetchCake db2 id2 := by
  have h1 := fetchCake_none_of_absent db1 id1 habsent
  have h2 := fetchCake_none_of_unavailable db2 id2 hunavail
  exact ⟨h1, h2, h1.trans h2.symm⟩

/-- C5 witness: a nonexistent id against the concrete store, and the
unavailable cake `k1` against the unavailable-cake store. -/
theorem c5_not_found_indistinguishable_witness :
    fetchCake exStore "nope" = none ∧ fetchCake exStoreUnavail "k1" = none ∧
    fetchCake exStore "nope" = fetchCake exStoreUnavail "k1" :=
  c5_not_found_indistinguishable exStore exStoreUnavail "nope" "k1"
    (by decide) (by decide)

/-- C6 counterexample: `handleSubmitOrder` with quantity 0 (not a positive
integer) does not fail — the order is created and persisted with
quantity 0. -/
theorem c6_counterexample :
    exZeroQtyForm.quantity = 0 ∧
    handleSubmitOrder exStore "u-cust" exCake exZeroQtyForm "o-q0" =
      some (exZeroStore, exZeroOrder) ∧
    exZeroOrder.quantity = 0 := by
  decide

/-- C6 (amended): no layer of the order path validates the quantity. The
quantity input handler only coerces a failed parse or a parsed 0 to 1
(`parseInt(value) || 1`, so it never yields 0 but can yield negatives);
`handleSubmitOrder` persists whatever quantity it is handed, unchanged, and
whether a submission is accepted is independent of the quantity; no
`InvalidInput` failure exists. -/
theorem c6_no_quantity_validation (v : Option Int) (db : Store)
    (uid : String) (cake : Cake) (form : OrderForm) (oid : String)
    (db2 : Store) (o : OrderRow) (q2 : Int)
    (hsubmit : handleSubmitOrder db uid cake form oid = some (db2, o)) :
    quantityFromInput v ≠ 0 ∧
    o.quantity = form.quantity ∧
    (handleSubmitOrder db uid cake { form with quantity := q2 } oid).isSome = true := by
  obtain ⟨profile, hp, ho, hallow, hdb2⟩ :=
    handleSubmitOrder_eq_some db uid cake form oid db2 o hsubmit
  refine ⟨?_, ?_, ?_⟩
  · cases v with
    | none => simp [quantityFromInput]
    | some n =>
      by_cases hn : n = 0
      · simp [quantityFromInput, hn]
      · simp [quantityFromInput, hn]
  · rw [ho]
    rfl
  · have hallow2 : orderInsertAllowed db uid
        (buildOrderRow profile.id cake { form with quantity := q2 } oid) = true := by
      rw [ho] at hallow
      simpa [orderInsertAllowed, orderRowCheckOk, buildOrderRow] using hallow
    simp [handleSubmitOrder, hp, insertOrder, hallow2]

/-- C6 witness: the zero-quantity submission on the concrete store, and the
same submission with quantity replaced by 5. -/
theorem c6_no_quantity_validation_witness :
    quantityFromInput (some 0) ≠ 0 ∧
    exZeroOrder.quantity = exZeroQtyForm.quantity ∧
    (handleSubmitOrder exStore "u-cust" exCake { exZeroQtyForm with quantity := 5 } "o-q0").isSome = true :=
  c6_no_quantity_validation (some 0) exStore "u-cust" exCake exZeroQtyForm
    "o-q0" exZeroStore exZeroOrder 5 (by decide)

/-- C7 counterexample: a delivery order with an empty delivery address is
not rejected — `handleSubmitOrder` creates and persists the order, storing
the empty string as its delivery address. -/
theorem c7_counterexample :
    exDeliveryEmptyForm.deliveryType = "delivery" ∧
    exDeliveryEmptyForm.deliveryAddress = "" ∧
    handleSubmitOrder exStore "u-cust" exCake exDeliveryEmptyForm "o-d0" =
      some (exDeliveryEmptyStore, exDeliveryEmptyOrder) ∧
    exDeliveryEmptyOrder.delivery_address = some "" := by
  decide

/-- C7 (amended): `handleSubmitOrder` performs no delivery-address
validation: for `delivery` it persists the supplied address verbatim, the
empty string included (only the form's `required` attribute guards it);
for `pickup` the supplied address is dropped and the persisted address is
absent. -/
theorem c7_delivery_address_handling (db : Store) (uid : String)
    (cake : Cake) (form : OrderForm) (oid : String) (db2 : Store) (o : OrderRow)
    (hsubmit : handleSubmitOrder db uid cake form oid = some (db2, o)) :
    (form.deliveryType = "pickup" → o.delivery_address = none) ∧
    (form.deliveryType = "delivery" → o.delivery_address = some form.deliveryAddress) := by
  obtain ⟨profile, hp, ho, hallow, hdb2⟩ :=
    handleSubmitOrder_eq_some db uid cake form oid db2 o hsubmit
  subst ho
  constructor
  · intro hpickup
    simp [buildOrderRow, hpickup]
  · intro hdelivery
    simp [buildOrderRow, hdelivery]

/-- C7 witness: the pickup order of the concrete store, whose supplied
address is dropped. -/
theorem c7_delivery_address_handling_witness :
    (exPickupForm.deliveryType = "pickup" → exPickupOrder.delivery_address = none) ∧
    (exPickupForm.deliveryType = "delivery" → exPickupOrder.delivery_address = some exPickupForm.deliveryAddress) :=
  c7_delivery_address_handling exStore "u-cust" exCake exPickupForm "o-p1"
    exPickupStore exPickupOrder (by decide)

/-- C8: setting a cake available is idempotent — applying the availability
update with target `true` twice yields exactly the state after one
application, and an availability update never inserts rows (the cake count
is unchanged), on every store, caller and cake id. -/
theorem c8_set_availability_idempotent (db : Store) (uid cakeId : String) :
    setAvailability (setAvailability db uid cakeId true) uid cakeId true =
      setAvailability db uid cakeId true ∧
    (setAvailability db uid cakeId true).cakes.length = db.cakes.length := by
  constructor
  · unfold setAvailability
    dsimp only
    congr 1
    rw [List.map_map]
    exact congrArg (fun f => db.cakes.map f)
      (funext fun c => setAvailRow_idem db.profiles db.bakeries uid cakeId true c)
  · simp [setAvailability]

/-- C9: on first authentication of a new principal (no profile exists for
it yet), the signup trigger provisions exactly one profile: the insert
succeeds, exactly one profile row carries the principal afterwards, the
table grows by one row, the role is the signup-supplied role defaulted to
`customer`, and the display name is the signup-supplied name defaulted to
the account's email. -/
theorem c9_profile_provisioning (db : Store) (u : AuthUser) (pid : String)
    (hfirst : ∀ p ∈ db.profiles, p.user_id ≠ u.id) :
    signupNewUser db u pid =
      some { db with profiles := db.profiles ++ [handle_new_user u pid] } ∧
    (db.profiles ++ [handle_new_user u pid]).filter (fun p => p.user_id == u.id) =
      [handle_new_user u pid] ∧
    (db.profiles ++ [handle_new_user u pid]).length = db.profiles.length + 1 ∧
    (handle_new_user u pid).role = u.meta_role.getD Role.customer ∧
    (handle_new_user u pid).display_name = some (u.meta_display_name.getD u.email) := by
  have hnone : db.profiles.any (fun p => p.user_id == u.id) = false := by
    rw [List.any_eq_false]
    intro p hp
    simp [hfirst p hp]
  refine ⟨?_, ?_, ?_, rfl, rfl⟩
  · unfold signupNewUser
    rw [hnone]
    simp
  · rw [List.filter_append]
    have h1 : db.profiles.filter (fun p => p.user_id == u.id) = [] := by
      rw [List.filter_eq_nil_iff]
      intro p hp
      simp [hfirst p hp]
    rw [h1]
    simp [handle_new_user]
  · simp

/-- C9 witness: a fresh principal with no signup metadata joining the
concrete store: role defaults to customer, display name to the email. -/
theorem c9_profile_provisioning_witness :
    signupNewUser exStore exNewUser "p-new" =
      some { exStore with profiles := exStore.profiles ++ [handle_new_user exNewUser "p-new"] } ∧
    (exStore.profiles ++ [handle_new_user exNewUser "p-new"]).filter (fun p => p.user_id == exNewUser.id) =
      [handle_new_user exNewUser "p-new"] ∧
    (exStore.profiles ++ [handle_new_user exNewUser "p-new"]).length = exStore.profiles.length + 1 ∧
    (handle_new_user exNewUser "p-new").role = exNewUser.meta_role.getD Role.customer ∧
    (handle_new_user exNewUser "p-new").display_name = some (exNewUser.meta_display_name.getD exNewUser.email) :=
  c9_profile_provisioning exStore exNewUser "p-new" (by decide)

/-- C10: empty optional inputs are normalized to absence — when the
preferred time or the special instructions field is submitted empty, the
persisted order stores `null` for it, and neither field is ever stored as
an empty string. -/
theorem c10_empty_optionals_normalized (db : Store) (uid : String)
    (cake : Cake) (form : OrderForm) (oid : String) (db2 : Store) (o : OrderRow)
    (hsubmit : handleSubmitOrder db uid cake form oid = some (db2, o)) :
    (form.preferredDeliveryTime = "" → o.preferred_delivery_time = none) ∧
    (form.specialInstructions = "" → o.special_instructions = none) ∧
    o.preferred_delivery_time ≠ some "" ∧
    o.special_instructions ≠ some "" := by
  obtain ⟨profile, hp, ho, hallow, hdb2⟩ :=
    handleSubmitOrder_eq_some db uid cake form oid db2 o hsubmit
  subst ho
  refine ⟨?_, ?_, ?_, ?_⟩
  · intro h
    simp [buildOrderRow, emptyToNull, h]
  · intro h
    simp [buildOrderRow, emptyToNull, h]
  · exact emptyToNull_ne_some_empty form.preferredDeliveryTime
  · exact emptyToNull_ne_some_empty form.specialInstructions

/-- C10 witness: the pickup order of the concrete store, both optional
fields submitted empty and persisted as absent. -/
theorem c10_empty_optionals_normalized_witness :
    (exPickupForm.preferredDeliveryTime = "" → exPickupOrder.preferred_delivery_time = none) ∧
    (exPickupForm.specialInstructions = "" → exPickupOrder.special_instructions = none) ∧
    exPickupOrder.preferred_delivery_time ≠ some "" ∧
    exPickupOrder.special_instructions ≠ some "" :=
  c10_empty_optionals_normalized exStore "u-cust" exCake exPickupForm "o-p1"
    exPickupStore exPickupOrder (by decide)

end BakeAndTaste
